import Mathlib

/-!
Shallow embedding of `src/sound.rs` from the quicksilver repository: a
cross-platform sound façade with a `Sound` value type (native: shared byte
buffer + volume + loop flag; web: handle to a browser media element + volume
+ loop flag), a loading routine per target, a `play` routine per target, and
a `StopHandle` whose only operation is `stop`.

External collaborators (the rodio decoder, the default output device, the
filesystem, the browser media element machinery) are modelled as explicit
capability parameters: a decode predicate on byte payloads, an optional
device, a path-to-bytes function that may fail with an I/O error, and the
error/ready flag readings polled from the browser.

`f32` values are modelled by their 32-bit IEEE-754 bit patterns (as `Nat`):
the source performs no floating-point arithmetic on volumes — it only stores
the value in a field, reads it back, and passes it opaquely to the amplify
stage — so bit-pattern identity is an exact model, faithful even for NaN,
infinities, negative and huge values.
-/

/-- Model of an `f32` value by its IEEE-754 bit pattern. The source never
computes with volumes, it only stores and forwards them, so this is exact. -/
abbrev F32 := Nat

/-- Bit pattern of `1f32`, the default volume installed by `load`. -/
def f32_one : F32 := 0x3F800000

/-- Model of `std::io::Error`: an error kind discriminant plus a message,
which is all the source ever constructs or propagates. -/
structure IOError where
  kind : Nat
  msg : String
deriving DecidableEq, Repr

/-- Discriminant standing for `std::io::ErrorKind::NotFound`, used by the
web loader's `wasm_sound_error` helper. -/
def errorKindNotFound : Nat := 1

/-- The error enum from `sound.rs`: `UnrecognizedFormat`, `NoOutputAvailable`,
and `IOError` wrapping the underlying I/O failure. -/
inductive SoundError where
  | UnrecognizedFormat
  | NoOutputAvailable
  | IOError (err : IOError)
deriving DecidableEq, Repr

/-- Recognizer for the `UnrecognizedFormat` variant of `SoundError`. -/
def SoundError.isUnrecognizedFormat : SoundError → Bool
  | SoundError.UnrecognizedFormat => true
  | _ => false

/-- Recognizer for the `NoOutputAvailable` variant of `SoundError`. -/
def SoundError.isNoOutputAvailable : SoundError → Bool
  | SoundError.NoOutputAvailable => true
  | _ => false

/-- Recognizer for the `IOError` variant of `SoundError`. -/
def SoundError.isIOError : SoundError → Bool
  | SoundError.IOError _ => true
  | _ => false

/-- `rodio::decoder::DecoderError` as used by this crate: the `From` impl in
`sound.rs` matches exactly one variant, `UnrecognizedFormat`. -/
inductive DecoderError where
  | UnrecognizedFormat
deriving DecidableEq, Repr

/-- The `From<DecoderError> for SoundError` impl (`sound.rs` lines 233-239). -/
def SoundError.ofDecoderError : DecoderError → SoundError
  | DecoderError.UnrecognizedFormat => SoundError.UnrecognizedFormat

/-- The `From<IOError> for SoundError` impl (`sound.rs` lines 242-246). -/
def soundErrorOfIOError (err : IOError) : SoundError :=
  SoundError.IOError err

namespace Native

/-- Native `Sound` (`cfg(not(target_arch = "wasm32"))`): `val` is the
`Arc<Vec<u8>>` byte buffer (clones hold the same buffer), plus the
`volume` and `loop_sound` fields. -/
structure Sound where
  val : List Nat
  volume : F32
  loop_sound : Bool
deriving DecidableEq, Repr

/-- `derive(Clone)` on `Sound`: `Arc::clone` yields a handle to the very same
byte buffer (equal `val`), and `volume` / `loop_sound` are plain copies. A
clone is a fresh struct, so later field writes on it never touch the
original struct; only the buffer behind `val` is shared, and it is never
written after load. -/
def Sound.clone (s : Sound) : Sound := s

/-- The `AsRef<[u8]> for Sound` impl: exposes the shared byte buffer, so a
`Cursor<Sound>` reads exactly `val`. -/
def Sound.asRef (s : Sound) : List Nat := s.val

/-- `Sound::set_volume`: overwrite the gain field, with no clamping. -/
def Sound.set_volume (s : Sound) (volume : F32) : Sound :=
  { s with volume := volume }

/-- `Sound::set_loop_sound`: overwrite the loop flag. -/
def Sound.set_loop_sound (s : Sound) (loop_sound : Bool) : Sound :=
  { s with loop_sound := loop_sound }

/-- The external decode capability: which byte payloads `Decoder::new`
accepts. -/
abbrev DecodeCap := List Nat → Bool

/-- `Decoder::new` over a cursor of bytes: succeeds exactly on payloads the
decode capability recognizes, otherwise fails with `UnrecognizedFormat`
(the only `DecoderError` variant this crate handles). -/
def decoderNew (dec : DecodeCap) (bytes : List Nat) : Except DecoderError Unit :=
  if dec bytes then Except.ok () else Except.error DecoderError.UnrecognizedFormat

/-- The external filesystem capability: `File::open(path)?.read_to_end(..)?`
collapsed into one call that either yields the file's bytes or an `IOError`. -/
abbrev FileCap := String → Except IOError (List Nat)

/-- The free function `load` (`sound.rs` lines 174-185): read all bytes
(I/O failure maps to `SoundError::IOError` via `?`), build the `Sound` with
volume `1f32` and loop disabled, then eagerly run `Decoder::new` over a
cursor on a clone purely to validate the format (`DecoderError` maps to
`SoundError::UnrecognizedFormat` via `?`), and return the sound. -/
def load (fs : FileCap) (dec : DecodeCap) (path : String) : Except SoundError Sound :=
  match fs path with
  | Except.error e => Except.error (soundErrorOfIOError e)
  | Except.ok bytes =>
      let sound : Sound := { val := bytes, volume := f32_one, loop_sound := false }
      match decoderNew dec (Sound.asRef (Sound.clone sound)) with
      | Except.error e => Except.error (SoundError.ofDecoderError e)
      | Except.ok _ => Except.ok sound

/-- Symbolic audio pipeline built by `get_source` / `play`: a decoder over a
fresh cursor of bytes, an amplify stage carrying the gain, a sample-format
conversion, and the infinite-repeat wrapper. -/
inductive Source where
  | decoded (bytes : List Nat)
  | amplify (src : Source) (gain : F32)
  | convertSamples (src : Source)
  | repeatInfinite (src : Source)
deriving DecidableEq, Repr

/-- Whether the outermost stage of a pipeline is the infinite-repeat wrapper. -/
def Source.isRepeatInfinite : Source → Bool
  | Source.repeatInfinite _ => true
  | _ => false

/-- `Sound::get_source` (`sound.rs` lines 128-130):
`Decoder::new(Cursor::new(self.clone()))?.amplify(self.volume).convert_samples()` —
decode a fresh cursor over the shared buffer, amplify by the current volume,
convert the samples. Decode failure propagates as `UnrecognizedFormat`. -/
def Sound.get_source (dec : DecodeCap) (s : Sound) : Except SoundError Source :=
  match decoderNew dec (Sound.asRef (Sound.clone s)) with
  | Except.error e => Except.error (SoundError.ofDecoderError e)
  | Except.ok _ =>
      Except.ok (Source.convertSamples
        (Source.amplify (Source.decoded (Sound.asRef (Sound.clone s))) s.volume))

/-- A rodio `Sink`: records the source appended to it and whether it has been
stopped. -/
structure Sink where
  source : Source
  stopped : Bool
deriving DecidableEq, Repr

/-- Native `StopHandle`: owns its sink. -/
structure StopHandle where
  sink : Sink
deriving DecidableEq, Repr

/-- `StopHandle::new` (native): always `Ok`. -/
def StopHandle.new (sink : Sink) : Except SoundError StopHandle :=
  Except.ok { sink := sink }

/-- The external output-device capability: `rodio::default_output_device()`,
`some` when a default output device exists. -/
abbrev Device := Unit

/-- `Sound::play` (native branch, `sound.rs` lines 137-150): fail with
`NoOutputAvailable` when no default output device exists; otherwise make a
fresh sink and append `get_source()?.repeat_infinite()` when the loop flag is
set, else `get_source()?` directly; wrap the sink in a `StopHandle`. -/
def Sound.play (dev : Option Device) (dec : DecodeCap) (s : Sound) :
    Except SoundError StopHandle :=
  match dev with
  | none => Except.error SoundError.NoOutputAvailable
  | some _ =>
      if s.loop_sound then
        match Sound.get_source dec s with
        | Except.error e => Except.error e
        | Except.ok src =>
            StopHandle.new { source := Source.repeatInfinite src, stopped := false }
      else
        match Sound.get_source dec s with
        | Except.error e => Except.error e
        | Except.ok src =>
            StopHandle.new { source := src, stopped := false }

/-- `play` takes `&self` and none of `Sound`'s fields has interior
mutability, so the borrow cannot change the receiver: the post-state of the
receiver is the pre-state. This wrapper threads the receiver through the
call to make that frame condition a statable equation. -/
def Sound.playTracked (dev : Option Device) (dec : DecodeCap) (s : Sound) :
    Sound × Except SoundError StopHandle :=
  (s, Sound.play dev dec s)

/-- `StopHandle::stop` (native branch): `self.sink.stop()` then `Ok(())`.
The handle is taken by value (consumed); the returned pair carries the
sink's post-state and the result. -/
def StopHandle.stop (h : StopHandle) : Sink × Except SoundError Unit :=
  ({ h.sink with stopped := true }, Except.ok ())

/-- Two-location state for the clone scenario: the original `Sound` struct
and the cloned `Sound` struct, which occupy distinct memory so field writes
on one never alias the other. -/
def clonePair (s : Sound) : Sound × Sound :=
  (s, Sound.clone s)

/-- Mutate the clone only: `set_volume(v)` then `set_loop_sound(b)` through a
`&mut` borrow of the second location, leaving the first untouched, exactly as
the Rust borrow discipline dictates for two separate structs. -/
def mutClone (p : Sound × Sound) (v : F32) (b : Bool) : Sound × Sound :=
  (p.1, Sound.set_loop_sound (Sound.set_volume p.2 v) b)

end Native

namespace Web

/-- An opaque reference to a browser media element (`stdweb::Value` holding
the `Audio` node). Clones of a `Sound` hold the same reference. -/
abbrev MediaHandle := Nat

/-- Web `Sound` (`cfg(target_arch = "wasm32")`): `sound` is the js `Value`
referencing the media element, plus the same `volume` and `loop_sound`
fields. -/
structure Sound where
  sound : MediaHandle
  volume : F32
  loop_sound : Bool
deriving DecidableEq, Repr

/-- `derive(Clone)` on the web `Sound`: the js `Value` clone references the
same media element; `volume` / `loop_sound` are plain copies in a fresh
struct. -/
def Sound.clone (s : Sound) : Sound := s

/-- `Sound::set_volume` (same target-independent source as native). -/
def Sound.set_volume (s : Sound) (volume : F32) : Sound :=
  { s with volume := volume }

/-- `Sound::set_loop_sound` (same target-independent source as native). -/
def Sound.set_loop_sound (s : Sound) (loop_sound : Bool) : Sound :=
  { s with loop_sound := loop_sound }

/-- `wasm_sound_error` (`sound.rs` lines 59-63): build an
`IOError::new(ErrorKind::NotFound, msg)` and convert it into
`SoundError::IOError`. -/
def wasm_sound_error (msg : String) : SoundError :=
  soundErrorOfIOError { kind := errorKindNotFound, msg := msg }

/-- `futures::Async`: one poll either yields the value or reports the task is
not ready yet. -/
inductive Poll (α : Type) where
  | Ready (a : α)
  | NotReady
deriving DecidableEq, Repr

/-- One iteration of the `poll_fn` closure in the web `load_impl`
(`sound.rs` lines 84-98): read the media element's error flag and ready
state (each read may itself fail, modelled by `Except Unit`), then match in
source order: no error and ready state 4 resolves to the `Sound` with volume
`1f32` and loop disabled; an error flag fails with the not-found message; no
error but not yet state 4 stays pending; an unreadable error flag, then an
unreadable ready state, fail with the respective check messages. -/
def load_poll (sound : MediaHandle) (error : Except Unit Bool)
    (ready : Except Unit Nat) : Except SoundError (Poll Sound) :=
  match error, ready with
  | Except.ok false, Except.ok 4 =>
      Except.ok (Poll.Ready { sound := sound, volume := f32_one, loop_sound := false })
  | Except.ok true, _ =>
      Except.error (wasm_sound_error "Sound file not found or could not load")
  | Except.ok false, Except.ok _ =>
      Except.ok Poll.NotReady
  | Except.error _, _ =>
      Except.error (wasm_sound_error "Checking sound network state failed")
  | _, Except.error _ =>
      Except.error (wasm_sound_error "Checking sound ready state failed")

/-- The operations the web `play` js block performs on the cloned node, in
order. -/
inductive WebOp where
  | cloneNode
  | setLoop (b : Bool)
  | setVolume (v : F32)
  | play
deriving DecidableEq, Repr

/-- Recognizer for a volume-setting operation on the cloned node. -/
def WebOp.isSetVolume : WebOp → Bool
  | WebOp.setVolume _ => true
  | _ => false

/-- The exact operation trace of the web `Sound::play` js block
(`sound.rs` lines 152-157): `cloneNode()`, `snd.loop = self.loop_sound`,
`snd.play()` — nothing else touches the clone before playback starts. -/
def Sound.playOps (s : Sound) : List WebOp :=
  [WebOp.cloneNode, WebOp.setLoop s.loop_sound, WebOp.play]

/-- Web `StopHandle`: owns the cloned, independently playing node. -/
structure StopHandle where
  sound : MediaHandle
deriving DecidableEq, Repr

/-- `StopHandle::new` (web): always `Ok`. -/
def StopHandle.new (sound : MediaHandle) : Except SoundError StopHandle :=
  Except.ok { sound := sound }

/-- Web `Sound::play` result: the handle owning the cloned node (which plays
from the same underlying media resource). -/
def Sound.play (s : Sound) : Except SoundError StopHandle :=
  StopHandle.new s.sound

/-- Playback state of the cloned media element observable through `stop`. -/
structure MediaState where
  paused : Bool
  currentTime : Nat
deriving DecidableEq, Repr

/-- `StopHandle::stop` (web branch): pause the node, reset `currentTime` to
0, return `Ok(())`. The handle is taken by value (consumed). -/
def StopHandle.stop (_h : StopHandle) (st : MediaState) :
    MediaState × Except SoundError Unit :=
  ({ st with paused := true, currentTime := 0 }, Except.ok ())

/-- The web `play` also takes `&self` and none of the web `Sound`'s fields
has interior mutability, so the borrow cannot change the receiver either;
this wrapper threads the receiver through the call, as in the native model. -/
def Sound.playTracked (s : Sound) : Sound × Except SoundError StopHandle :=
  (s, Sound.play s)

/-- Two-location state for the clone scenario on the web target. -/
def clonePair (s : Sound) : Sound × Sound :=
  (s, Sound.clone s)

/-- Mutate only the cloned `Sound` struct, as in the native scenario. -/
def mutClone (p : Sound × Sound) (v : F32) (b : Bool) : Sound × Sound :=
  (p.1, Sound.set_loop_sound (Sound.set_volume p.2 v) b)

end Web

/-!
Theorems settling the claims. Each theorem is stated over the embedded
operations above, quantified over the external capabilities.
-/

/-- Claim C1: for every successful load (on either target), the returned
Sound has volume equal to 1.0 and the loop flag disabled. -/
theorem c1_load_success_defaults :
    (∀ fs dec path s, Native.load fs dec path = Except.ok s →
        s.volume = f32_one ∧ s.loop_sound = false) ∧
    (∀ h err rdy s, Web.load_poll h err rdy = Except.ok (Web.Poll.Ready s) →
        s.volume = f32_one ∧ s.loop_sound = false) := by
  constructor
  · intro fs dec path s hs
    obtain ⟨sval, svol, sloop⟩ := s
    cases hfs : fs path with
    | error e => simp [Native.load, hfs] at hs
    | ok bytes =>
        by_cases hdec : dec bytes <;>
          simp_all [Native.load, hfs, Native.decoderNew, Native.Sound.asRef,
            Native.Sound.clone, hdec]
  · intro h err rdy s hs
    obtain ⟨ssound, svol, sloop⟩ := s
    unfold Web.load_poll at hs
    split at hs <;> simp_all

/-- Witness for C1: both load paths succeed on concrete inputs and the
defaults hold there. -/
theorem c1_witness :
    (Native.load (fun _ => Except.ok [7]) (fun _ => true) "clip.ogg" =
        Except.ok { val := [7], volume := f32_one, loop_sound := false } ∧
      Native.Sound.volume { val := [7], volume := f32_one, loop_sound := false } = f32_one) ∧
    (Web.load_poll 0 (Except.ok false) (Except.ok 4) =
        Except.ok (Web.Poll.Ready { sound := 0, volume := f32_one, loop_sound := false }) ∧
      Web.Sound.volume { sound := 0, volume := f32_one, loop_sound := false } = f32_one) :=
  ⟨⟨rfl, (c1_load_success_defaults.1 (fun _ => Except.ok [7]) (fun _ => true) "clip.ogg"
      { val := [7], volume := f32_one, loop_sound := false } rfl).1⟩,
   ⟨rfl, (c1_load_success_defaults.2 0 (Except.ok false) (Except.ok 4)
      { sound := 0, volume := f32_one, loop_sound := false } rfl).1⟩⟩

/-- Claim C2: on the native target, when the file's bytes cannot be decoded,
load fails with `UnrecognizedFormat` and never returns a Sound; the decoder
check happens eagerly inside load, so a successful load implies the decode
capability accepted the loaded bytes. -/
theorem c2_load_unrecognized_format :
    (∀ fs dec path bytes, fs path = Except.ok bytes → dec bytes = false →
        Native.load fs dec path = Except.error SoundError.UnrecognizedFormat) ∧
    (∀ fs dec path s, Native.load fs dec path = Except.ok s → dec s.val = true) := by
  constructor
  · intro fs dec path bytes hfs hdec
    simp [Native.load, hfs, Native.decoderNew, Native.Sound.asRef, Native.Sound.clone,
      hdec, SoundError.ofDecoderError]
  · intro fs dec path s hs
    obtain ⟨sval, svol, sloop⟩ := s
    cases hfs : fs path with
    | error e => simp [Native.load, hfs] at hs
    | ok bytes =>
        by_cases hdec : dec bytes <;>
          simp_all [Native.load, hfs, Native.decoderNew, Native.Sound.asRef,
            Native.Sound.clone, hdec]

/-- Witness for C2: a concrete rejected payload makes load fail with
`UnrecognizedFormat`, and a concrete successful load has decodable bytes. -/
theorem c2_witness :
    ((fun _ : String => (Except.ok [9] : Except IOError (List Nat))) "bad.bin" =
        Except.ok [9] ∧
      (fun _ : List Nat => false) [9] = false ∧
      Native.load (fun _ => Except.ok [9]) (fun _ => false) "bad.bin" =
        Except.error SoundError.UnrecognizedFormat) ∧
    (Native.load (fun _ => Except.ok [9]) (fun _ => true) "good.ogg" =
        Except.ok { val := [9], volume := f32_one, loop_sound := false } ∧
      (fun _ : List Nat => true) [9] = true) :=
  ⟨⟨rfl, rfl, c2_load_unrecognized_format.1 (fun _ => Except.ok [9]) (fun _ => false)
      "bad.bin" [9] rfl rfl⟩,
   ⟨rfl, c2_load_unrecognized_format.2 (fun _ => Except.ok [9]) (fun _ => true) "good.ogg"
      { val := [9], volume := f32_one, loop_sound := false } rfl⟩⟩

/-- Claim C3: on the native target, play returns `NoOutputAvailable` exactly
when no default output device exists, and that error kind never surfaces
from load. -/
theorem c3_no_output_available :
    (∀ dev dec s, Native.Sound.play dev dec s = Except.error SoundError.NoOutputAvailable ↔
        dev = none) ∧
    (∀ fs dec path e, Native.load fs dec path = Except.error e →
        e.isNoOutputAvailable = false) := by
  constructor
  · intro dev dec s
    cases dev with
    | none => simp [Native.Sound.play]
    | some d =>
        simp only [Native.Sound.play]
        constructor
        · intro hcontra
          by_cases hl : s.loop_sound <;> by_cases hdec : dec s.val <;>
            simp [hl, hdec, Native.Sound.get_source, Native.decoderNew,
              Native.Sound.asRef, Native.Sound.clone, Native.StopHandle.new,
              SoundError.ofDecoderError] at hcontra
        · intro hnone
          cases hnone
  · intro fs dec path e hs
    cases hfs : fs path with
    | error e0 =>
        simp [Native.load, hfs, soundErrorOfIOError] at hs
        simp [← hs, SoundError.isNoOutputAvailable]
    | ok bytes =>
        by_cases hdec : dec bytes
        · simp_all [Native.load, hfs, Native.decoderNew, Native.Sound.asRef,
            Native.Sound.clone, hdec, SoundError.ofDecoderError]
        · simp only [Native.load, hfs, Native.decoderNew, Native.Sound.asRef,
            Native.Sound.clone, hdec, if_false, Bool.false_eq_true, if_neg,
            SoundError.ofDecoderError] at hs
          injection hs with h2
          rw [← h2]
          rfl

/-- Witness for C3: with no device, a concrete play call fails with
`NoOutputAvailable`; a concrete failing load yields an error kind that is
not `NoOutputAvailable`. -/
theorem c3_witness :
    Native.Sound.play none (fun _ => true)
        { val := [], volume := f32_one, loop_sound := false } =
      Except.error SoundError.NoOutputAvailable ∧
    (Native.load (fun _ => Except.error { kind := 2, msg := "no such file" })
        (fun _ => true) "missing.ogg" =
      Except.error (SoundError.IOError { kind := 2, msg := "no such file" }) ∧
      SoundError.isNoOutputAvailable
        (SoundError.IOError { kind := 2, msg := "no such file" }) = false) :=
  ⟨(c3_no_output_available.1 none (fun _ => true)
      { val := [], volume := f32_one, loop_sound := false }).mpr rfl,
   rfl,
   c3_no_output_available.2 (fun _ => Except.error { kind := 2, msg := "no such file" })
      (fun _ => true) "missing.ogg" (SoundError.IOError { kind := 2, msg := "no such file" }) rfl⟩

/-- Claim C4: for every f32 value v (modelled by its bit pattern, hence
covering negative, huge and non-finite values, stored without clamping),
`set_volume v` followed by `volume()` returns exactly v, on either target. -/
theorem c4_volume_roundtrip :
    (∀ (s : Native.Sound) (v : F32), (Native.Sound.set_volume s v).volume = v) ∧
    (∀ (s : Web.Sound) (v : F32), (Web.Sound.set_volume s v).volume = v) :=
  ⟨fun _ _ => rfl, fun _ _ => rfl⟩

/-- Claim C5: cloning a Sound and then mutating the clone's volume and loop
flag leaves the original's volume and loop flag unchanged, while clone and
original keep sharing the same underlying audio data (native: the same byte
buffer; web: the same media resource reference). -/
theorem c5_clone_mutation_independent :
    (∀ (s : Native.Sound) (v : F32) (b : Bool),
        (Native.mutClone (Native.clonePair s) v b).1.volume = s.volume ∧
        (Native.mutClone (Native.clonePair s) v b).1.loop_sound = s.loop_sound ∧
        (Native.mutClone (Native.clonePair s) v b).2.val =
          (Native.mutClone (Native.clonePair s) v b).1.val ∧
        (Native.mutClone (Native.clonePair s) v b).2.volume = v ∧
        (Native.mutClone (Native.clonePair s) v b).2.loop_sound = b) ∧
    (∀ (s : Web.Sound) (v : F32) (b : Bool),
        (Web.mutClone (Web.clonePair s) v b).1.volume = s.volume ∧
        (Web.mutClone (Web.clonePair s) v b).1.loop_sound = s.loop_sound ∧
        (Web.mutClone (Web.clonePair s) v b).2.sound =
          (Web.mutClone (Web.clonePair s) v b).1.sound ∧
        (Web.mutClone (Web.clonePair s) v b).2.volume = v ∧
        (Web.mutClone (Web.clonePair s) v b).2.loop_sound = b) :=
  ⟨fun _ _ _ => ⟨rfl, rfl, rfl, rfl, rfl⟩, fun _ _ _ => ⟨rfl, rfl, rfl, rfl, rfl⟩⟩

/-- Claim C6: on the native target, when a device exists and the bytes
decode, play builds convert(amplify(decode(fresh cursor over the shared
bytes), current volume)) and wraps it in `repeat_infinite` if and only if
the loop flag is set, feeding exactly that source to the sink. -/
theorem c6_play_pipeline (dec : Native.DecodeCap) (s : Native.Sound)
    (hdec : dec s.val = true) :
    (Native.Sound.play (some ()) dec s =
      Except.ok { sink := { source :=
                              (if s.loop_sound then
                                Native.Source.repeatInfinite (Native.Source.convertSamples
                                  (Native.Source.amplify (Native.Source.decoded s.val) s.volume))
                              else
                                Native.Source.convertSamples
                                  (Native.Source.amplify (Native.Source.decoded s.val) s.volume)),
                            stopped := false } }) ∧
    (∀ h, Native.Sound.play (some ()) dec s = Except.ok h →
        h.sink.source.isRepeatInfinite = s.loop_sound) := by
  have hplay : Native.Sound.play (some ()) dec s =
      Except.ok { sink := { source :=
                              (if s.loop_sound then
                                Native.Source.repeatInfinite (Native.Source.convertSamples
                                  (Native.Source.amplify (Native.Source.decoded s.val) s.volume))
                              else
                                Native.Source.convertSamples
                                  (Native.Source.amplify (Native.Source.decoded s.val) s.volume)),
                            stopped := false } } := by
    by_cases hl : s.loop_sound <;>
      simp [Native.Sound.play, Native.Sound.get_source, Native.decoderNew,
        Native.Sound.asRef, Native.Sound.clone, Native.StopHandle.new, hdec, hl]
  refine ⟨hplay, ?_⟩
  intro h hh
  rw [hplay] at hh
  obtain ⟨⟩ := hh
  by_cases hl : s.loop_sound <;> simp [hl, Native.Source.isRepeatInfinite]

/-- Witness for C6: a concrete looping Sound with decodable bytes produces
exactly the repeat-wrapped pipeline. -/
theorem c6_witness :
    ((fun _ : List Nat => true) [0] = true) ∧
    Native.Sound.play (some ()) (fun _ => true)
        { val := [0], volume := f32_one, loop_sound := true } =
      Except.ok { sink := { source := Native.Source.repeatInfinite
                              (Native.Source.convertSamples
                                (Native.Source.amplify (Native.Source.decoded [0]) f32_one)),
                            stopped := false } } :=
  ⟨rfl, by
    have h := (c6_play_pipeline (fun _ => true)
      { val := [0], volume := f32_one, loop_sound := true } rfl).1
    simpa using h⟩

/-- Claim C7: on the native target, loading a path whose read fails yields
the `IOError` kind wrapping the underlying failure, which is not
`UnrecognizedFormat`. -/
theorem c7_missing_path_io_error (fs : Native.FileCap) (dec : Native.DecodeCap)
    (path : String) (e : IOError) (hfs : fs path = Except.error e) :
    Native.load fs dec path = Except.error (SoundError.IOError e) ∧
    SoundError.isUnrecognizedFormat (SoundError.IOError e) = false := by
  refine ⟨?_, rfl⟩
  simp [Native.load, hfs, soundErrorOfIOError]

/-- Witness for C7: a concrete filesystem that reports a missing file makes
load fail with the `IOError` kind. -/
theorem c7_witness :
    ((fun _ : String => (Except.error { kind := errorKindNotFound, msg := "not found" } :
        Except IOError (List Nat))) "ghost.wav" =
      Except.error { kind := errorKindNotFound, msg := "not found" }) ∧
    Native.load (fun _ => Except.error { kind := errorKindNotFound, msg := "not found" })
        (fun _ => true) "ghost.wav" =
      Except.error (SoundError.IOError { kind := errorKindNotFound, msg := "not found" }) ∧
    SoundError.isUnrecognizedFormat
        (SoundError.IOError { kind := errorKindNotFound, msg := "not found" }) = false :=
  ⟨rfl,
   (c7_missing_path_io_error (fun _ => Except.error { kind := errorKindNotFound, msg := "not found" })
      (fun _ => true) "ghost.wav" { kind := errorKindNotFound, msg := "not found" } rfl).1,
   (c7_missing_path_io_error (fun _ => Except.error { kind := errorKindNotFound, msg := "not found" })
      (fun _ => true) "ghost.wav" { kind := errorKindNotFound, msg := "not found" } rfl).2⟩

/-- Claim C8: on the web target, play performs exactly cloneNode, then sets
the loop flag from the Sound's current loop setting, then invokes play on
the clone; no operation in the trace applies the Sound's volume field. -/
theorem c8_web_play_trace (s : Web.Sound) :
    Web.Sound.playOps s =
      [Web.WebOp.cloneNode, Web.WebOp.setLoop s.loop_sound, Web.WebOp.play] ∧
    (Web.Sound.playOps s).all (fun op => !op.isSetVolume) = true :=
  ⟨rfl, rfl⟩

/-- Claim C9: stop consumes the handle (it is taken by value and not
returned, so it cannot be invoked twice) and always returns the empty
success value on either target; the sink is stopped, the web node paused
and rewound. -/
theorem c9_stop_always_ok :
    (∀ (h : Native.StopHandle),
        (Native.StopHandle.stop h).2 = Except.ok () ∧
        ((Native.StopHandle.stop h).1).stopped = true) ∧
    (∀ (h : Web.StopHandle) (st : Web.MediaState),
        (Web.StopHandle.stop h st).2 = Except.ok () ∧
        (Web.StopHandle.stop h st).1.paused = true ∧
        (Web.StopHandle.stop h st).1.currentTime = 0) :=
  ⟨fun _ => ⟨rfl, rfl⟩, fun _ _ => ⟨rfl, rfl, rfl⟩⟩

/-- Claim C10: play never mutates the Sound it is called on, on either
target: natively, whatever the device and decode capabilities (so for the
`Ok`, `NoOutputAvailable` and decode-failure outcomes alike), the
receiver's volume, loop flag and shared byte buffer after the call are
exactly the ones before; on the web, the receiver's volume, loop flag and
media handle are likewise unchanged; in both cases the returned result is
the play result. -/
theorem c10_play_no_mutation :
    (∀ (dev : Option Native.Device) (dec : Native.DecodeCap) (s : Native.Sound),
        (Native.Sound.playTracked dev dec s).1.volume = s.volume ∧
        (Native.Sound.playTracked dev dec s).1.loop_sound = s.loop_sound ∧
        (Native.Sound.playTracked dev dec s).1.val = s.val ∧
        (Native.Sound.playTracked dev dec s).2 = Native.Sound.play dev dec s) ∧
    (∀ (s : Web.Sound),
        (Web.Sound.playTracked s).1.volume = s.volume ∧
        (Web.Sound.playTracked s).1.loop_sound = s.loop_sound ∧
        (Web.Sound.playTracked s).1.sound = s.sound ∧
        (Web.Sound.playTracked s).2 = Web.Sound.play s) :=
  ⟨fun _ _ _ => ⟨rfl, rfl, rfl, rfl⟩, fun _ => ⟨rfl, rfl, rfl, rfl⟩⟩
